import Mathlib

/-!
Formal model of the librcsc abstract formation class
(`src/rcsc/formation/formation.h`).

The header file contains the inline query methods (`isSideType`,
`isCenterType`, `isSymmetryType`, `getSymmetryNumber`) verbatim; those are
translated directly from the source.  The bodies of `updateRole`,
`setCenterType`/`setSideType`/`setSymmetryType`, `read`/`print` and the two
static `create` overloads are declared in the header but their definitions
are not part of the source tree, so they are modelled from the
specification, as marked on each definition.

Machine integers (`int`) are modelled as `Int`; the value range involved is
tiny (player numbers, symmetry references, format versions) and no overflow
can occur, so no modular reduction is needed.  The fixed `int[11]` array
`M_symmetry_number` is modelled as a `List Int` whose length is 11 in every
state the program can construct; bounds-guarded accesses use `List.getD`,
whose default is never reached when the guard has passed and the length
is 11.
-/

namespace Rcsc

/-- Plain 2D vector, standing in for `rcsc::Vector2D`: `x` is the
longitudinal coordinate, `y` the lateral one. -/
structure Vector2D where
  x : Int
  y : Int
deriving DecidableEq, Repr

/-- One training sample of the external `formation::SampleDataSet`
collaborator: a focus point (ball position) paired with a positional
snapshot.  The container is opaque to the formation core; only its
(de)serialization round-trip matters here. -/
structure Sample where
  ballX : Int
  ballY : Int
  players : List (Int × Int)
deriving DecidableEq, Repr

/-- Abstract formation state from `formation.h`:
`name` models the `methodName()` of the concrete strategy (the registry
key and HEADER token), `version` is `M_version`, `symmetryNumber` is the
`int M_symmetry_number[11]` table (negative = SIDE, zero = CENTER,
positive = SYMMETRY referring to that player), `roleName` models the
per-player role-name storage exposed through the
`createNewRole`/`setRoleName`/`getRoleName` hooks, and `samples` is the
content of the `M_samples` handle. -/
structure Formation where
  name : String
  version : Int
  symmetryNumber : List Int
  roleName : List String
  samples : List Sample
deriving DecidableEq, Repr

/-- Constructor `Formation::Formation()`: the header documents it as
"initialize symmetry number matrix by -1", i.e. every slot starts as SIDE;
a fresh instance holds no samples and no role names. -/
def initialFormation (nm : String) : Formation :=
  { name := nm
    version := 0
    symmetryNumber := List.replicate 11 (-1)
    roleName := List.replicate 11 ""
    samples := [] }

/-- Source `Formation::isSideType` (formation.h:185):
`if ( unum < 1 || 11 < unum ) return false; return ( M_symmetry_number[unum - 1] < 0 );` -/
def Formation.isSideType (f : Formation) (unum : Int) : Bool :=
  if unum < 1 ∨ 11 < unum then false
  else decide (f.symmetryNumber.getD (unum - 1).toNat 0 < 0)

/-- Source `Formation::isCenterType` (formation.h:196):
`if ( unum < 1 || 11 < unum ) return false; return ( M_symmetry_number[unum - 1] == 0 );` -/
def Formation.isCenterType (f : Formation) (unum : Int) : Bool :=
  if unum < 1 ∨ 11 < unum then false
  else decide (f.symmetryNumber.getD (unum - 1).toNat 0 = 0)

/-- Source `Formation::isSymmetryType` (formation.h:207):
`if ( unum < 1 || 11 < unum ) return false; return ( M_symmetry_number[unum - 1] > 0 );` -/
def Formation.isSymmetryType (f : Formation) (unum : Int) : Bool :=
  if unum < 1 ∨ 11 < unum then false
  else decide (f.symmetryNumber.getD (unum - 1).toNat 0 > 0)

/-- Source `Formation::getSymmetryNumber` (formation.h:219):
`if ( unum < 1 || 11 < unum ) return 0; return M_symmetry_number[unum - 1];` -/
def Formation.getSymmetryNumber (f : Formation) (unum : Int) : Int :=
  if unum < 1 ∨ 11 < unum then 0
  else f.symmetryNumber.getD (unum - 1).toNat 0

/-- Modelled from the spec: `Formation::setCenterType` (declared at
formation.h:266, body not in src/).  Spec 4.2: `symmetryRef == 0` classifies
the slot as CENTER; invariant 1 rejects any out-of-range index without
altering state. -/
def Formation.setCenterType (f : Formation) (unum : Int) : Formation :=
  if unum < 1 ∨ 11 < unum then f
  else { f with symmetryNumber := f.symmetryNumber.set (unum - 1).toNat 0 }

/-- Modelled from the spec: `Formation::setSideType` (declared at
formation.h:272, body not in src/).  Spec 4.2: `symmetryRef < 0` classifies
the slot as SIDE; the header documents negative entries as SIDE, so the
slot is stored as `-1`. -/
def Formation.setSideType (f : Formation) (unum : Int) : Formation :=
  if unum < 1 ∨ 11 < unum then f
  else { f with symmetryNumber := f.symmetryNumber.set (unum - 1).toNat (-1) }

/-- Modelled from the spec: `Formation::setSymmetryType` (declared at
formation.h:279, body not in src/).  Spec 4.2: `symmetryRef > 0` classifies
the slot as SYMMETRY referencing `symmetryRef`, but only if slot
`symmetryRef` currently holds SIDE, otherwise the call is rejected with no
mutation; spec invariant 2 forbids self-reference and chains of mirrors, so
a reference to the slot itself is likewise rejected. -/
def Formation.setSymmetryType (f : Formation) (unum symmetry_unum : Int) :
    Bool × Formation :=
  if unum < 1 ∨ 11 < unum then (false, f)
  else if symmetry_unum < 1 ∨ 11 < symmetry_unum then (false, f)
  else if symmetry_unum = unum then (false, f)
  else if f.isSideType symmetry_unum then
    (true, { f with symmetryNumber := f.symmetryNumber.set (unum - 1).toNat symmetry_unum })
  else (false, f)

/-- Modelled from the spec: the `createNewRole`/`setRoleName` strategy-owned
role storage hooks (formation.h:248,258), collapsed into one bounds-guarded
store into the role-name table. -/
def Formation.setRoleNameAt (f : Formation) (unum : Int) (nm : String) : Formation :=
  if unum < 1 ∨ 11 < unum then f
  else { f with roleName := f.roleName.set (unum - 1).toNat nm }

/-- Modelled from the spec: `Formation::updateRole` (declared at
formation.h:235, body not in src/).  Spec 4.2: rejects an invalid player
number immediately (no mutation, returns false); `symmetryRef < 0` means
SIDE, `== 0` means CENTER, `> 0` means SYMMETRY and is accepted only if the
referenced slot currently holds SIDE; on acceptance the role name is
associated with the slot; the whole operation is all-or-nothing. -/
def Formation.updateRole (f : Formation) (unum symmetry_unum : Int)
    (role_name : String) : Bool × Formation :=
  if unum < 1 ∨ 11 < unum then (false, f)
  else if symmetry_unum < 0 then
    (true, (f.setSideType unum).setRoleNameAt unum role_name)
  else if symmetry_unum = 0 then
    (true, (f.setCenterType unum).setRoleNameAt unum role_name)
  else
    match f.setSymmetryType unum symmetry_unum with
    | (false, f1) => (false, f1)
    | (true, f1) => (true, f1.setRoleNameAt unum role_name)

/-- States reachable from a freshly constructed `Formation` by any sequence
of `updateRole` calls (the only public mutator of the classification
table besides deserialization). -/
inductive Reachable : Formation → Prop where
  | init (nm : String) : Reachable (initialFormation nm)
  | step (f : Formation) (unum symmetry_unum : Int) (role_name : String) :
      Reachable f → Reachable (f.updateRole unum symmetry_unum role_name).2

/-! Serialization.  The persisted text format is a whitespace-separated
token stream (spec section 6); a token is either a name/role string or an
integer.  `read`/`print` and their block helpers are declared in
formation.h (lines 323-400) but their bodies are not in src/, so the whole
protocol is modelled from the spec: HEADER = strategy-name token plus
integer version; CONF = per-player classification and role name; SAMPLES =
count-prefixed list of samples, each a focus point plus a count-prefixed
snapshot. -/

/-- One whitespace-separated token of the persisted text format. -/
inductive Token where
  | tstr : String → Token
  | tint : Int → Token
deriving DecidableEq, Repr

/-- Modelled from the spec: the version ceiling of `readHeader` — "version
is a recognized, non-exceeding value; unsupported versions fail rather than
degrade silently".  The concrete ceiling is not fixed by the spec; it is a
model constant. -/
def maxFormatVersion : Int := 3

/-- Modelled from the spec: a format version is supported when it is a
recognized, non-exceeding value. -/
def versionSupported (v : Int) : Bool :=
  decide (0 ≤ v) && decide (v ≤ maxFormatVersion)

/-- Read the HEADER token pair (strategy name, version) without
constructing anything. -/
def readNameVersion : List Token → Option ((String × Int) × List Token)
  | Token.tstr nm :: Token.tint v :: rest => some ((nm, v), rest)
  | _ => none

/-- Modelled from the spec: `Formation::readHeader` (formation.h:355) —
reads the name and version tokens, verifies the name matches the
instantiated strategy and the version is supported, and stores the
version. -/
def Formation.readHeader (f : Formation) (ts : List Token) :
    Option (Formation × List Token) :=
  match readNameVersion ts with
  | none => none
  | some ((nm, v), rest) =>
      if nm = f.name ∧ versionSupported v = true then
        some ({ f with version := v }, rest)
      else none

/-- Read exactly `n` CONF entries, each an integer classification value
followed by a role-name string. -/
def readConfEntries : Nat → List Token → Option (List (Int × String) × List Token)
  | 0, ts => some ([], ts)
  | n + 1, Token.tint s :: Token.tstr nm :: rest =>
      match readConfEntries n rest with
      | none => none
      | some (l, ts1) => some ((s, nm) :: l, ts1)
  | _ + 1, _ => none

/-- Modelled from the spec: `Formation::readConf` (formation.h:363) — the
CONF block "must at minimum encode, per player, its classification and role
name"; eleven entries are read and installed into the tables. -/
def Formation.readConf (f : Formation) (ts : List Token) :
    Option (Formation × List Token) :=
  match readConfEntries 11 ts with
  | none => none
  | some (l, ts1) =>
      some ({ f with symmetryNumber := l.map Prod.fst
                     roleName := l.map Prod.snd }, ts1)

/-- Read one integer pair (a 2D point). -/
def readPoint : List Token → Option ((Int × Int) × List Token)
  | Token.tint a :: Token.tint b :: rest => some ((a, b), rest)
  | _ => none

/-- Read exactly `n` consecutive integer pairs. -/
def readNPoints : Nat → List Token → Option (List (Int × Int) × List Token)
  | 0, ts => some ([], ts)
  | n + 1, ts =>
      match readPoint ts with
      | none => none
      | some (p, ts1) =>
          match readNPoints n ts1 with
          | none => none
          | some (l, ts2) => some (p :: l, ts2)

/-- Read one sample: focus point, then a count-prefixed snapshot. -/
def readSample : List Token → Option (Sample × List Token)
  | Token.tint bx :: Token.tint b2 :: Token.tint cnt :: rest =>
      match readNPoints cnt.toNat rest with
      | none => none
      | some (l, ts1) => some ({ ballX := bx, ballY := b2, players := l }, ts1)
  | _ => none

/-- Read exactly `n` consecutive samples. -/
def readNSamples : Nat → List Token → Option (List Sample × List Token)
  | 0, ts => some ([], ts)
  | n + 1, ts =>
      match readSample ts with
      | none => none
      | some (s, ts1) =>
          match readNSamples n ts1 with
          | none => none
          | some (l, ts2) => some (s :: l, ts2)

/-- Modelled from the spec: `Formation::readSamples` (formation.h:371) —
the SAMPLES block is a count followed by that many samples, delegated to
the sample container's own format. -/
def Formation.readSamples (f : Formation) (ts : List Token) :
    Option (Formation × List Token) :=
  match ts with
  | Token.tint cnt :: rest =>
      match readNSamples cnt.toNat rest with
      | none => none
      | some (l, ts1) => some ({ f with samples := l }, ts1)
  | _ => none

/-- Modelled from the spec: `Formation::read` (formation.h:323) — executes
the HEADER, CONF and SAMPLES blocks in order, aborting at the first
failure. -/
def Formation.read (f : Formation) (ts : List Token) : Option Formation :=
  match f.readHeader ts with
  | none => none
  | some (f1, ts1) =>
      match f1.readConf ts1 with
      | none => none
      | some (f2, ts2) =>
          match f2.readSamples ts2 with
          | none => none
          | some (f3, _) => some f3

/-- Modelled from the spec: `Formation::printHeader` (formation.h:384) —
the strategy-name token followed by the integer version. -/
def Formation.printHeader (f : Formation) : List Token :=
  [Token.tstr f.name, Token.tint f.version]

/-- The eleven CONF entries of a formation: per player its classification
value and role name. -/
def Formation.confEntries (f : Formation) : List (Int × String) :=
  (List.range 11).map (fun i => (f.symmetryNumber.getD i 0, f.roleName.getD i ""))

/-- Tokens of one CONF entry. -/
def printConfEntry (e : Int × String) : List Token :=
  [Token.tint e.1, Token.tstr e.2]

/-- Modelled from the spec: `Formation::printConf` (formation.h:392) — the
per-player classification and role name, in player order. -/
def Formation.printConf (f : Formation) : List Token :=
  f.confEntries.flatMap printConfEntry

/-- Tokens of one 2D point. -/
def printPoint (p : Int × Int) : List Token :=
  [Token.tint p.1, Token.tint p.2]

/-- Tokens of one sample: focus point, then count-prefixed snapshot. -/
def printSample (s : Sample) : List Token :=
  Token.tint s.ballX :: Token.tint s.ballY ::
    Token.tint (s.players.length : Int) :: s.players.flatMap printPoint

/-- Modelled from the spec: `Formation::printSamples` (formation.h:400) —
sample count, then the samples. -/
def Formation.printSamples (f : Formation) : List Token :=
  Token.tint (f.samples.length : Int) :: f.samples.flatMap printSample

/-- Modelled from the spec: `Formation::print` (formation.h:330) — mirrors
`read`: HEADER, CONF, SAMPLES in order. -/
def Formation.print (f : Formation) : List Token :=
  f.printHeader ++ f.printConf ++ f.printSamples

/-- Modelled from the spec: the static `Formation::create(const std::string &)`
(formation.h:85) over the name-keyed registry, which is modelled as the
list of registered strategy names.  Looks the name up; returns an
empty/null handle if unregistered, otherwise a freshly constructed
default instance.  The registry itself is returned unchanged alongside the
result to record that a lookup never mutates it. -/
def createByName (reg : List String) (nm : String) :
    Option Formation × List String :=
  if nm ∈ reg then (some (initialFormation nm), reg) else (none, reg)

/-- Modelled from the spec: the static `Formation::create(std::istream &)`
(formation.h:93) — reads only the HEADER token pair first, resolves the
name through the registry, and on success performs a full `read` of the
whole stream (HEADER, CONF and SAMPLES); returns null if the header cannot
be read or the name is unregistered, and propagates any failure of
`read`. -/
def createFromStream (reg : List String) (ts : List Token) : Option Formation :=
  match readNameVersion ts with
  | none => none
  | some ((nm, _), _) =>
      if nm ∈ reg then (initialFormation nm).read ts else none

/-- Modelled from the spec: the direct (non-mirrored) position computation
of a concrete strategy for a SIDE or CENTER player.  The concrete
geometric interpolation is out of scope for the core, so it is abstracted
as a stored base position offset by the focus point; only its shape as a
deterministic pure function of (player number, focus point) matters. -/
def directPosition (base : List Vector2D) (focus : Vector2D) (unum : Int) : Vector2D :=
  let b := base.getD (unum - 1).toNat { x := 0, y := 0 }
  { x := b.x + focus.x, y := b.y + focus.y }

/-- Modelled from the spec: `Formation::getPosition` (formation.h:300) as
every concrete strategy must implement it (spec 4.5): a SIDE or CENTER
player gets its directly computed position; a SYMMETRY player gets the
referenced SIDE player's computed position with the lateral coordinate
(`y`) negated and the longitudinal coordinate (`x`) unchanged.  An
out-of-range player number yields the origin as safe default. -/
def Formation.getPosition (f : Formation) (base : List Vector2D) (unum : Int)
    (focus : Vector2D) : Vector2D :=
  if unum < 1 ∨ 11 < unum then { x := 0, y := 0 }
  else if 0 < f.symmetryNumber.getD (unum - 1).toNat 0 then
    { x := (directPosition base focus (f.symmetryNumber.getD (unum - 1).toNat 0)).x
      y := - (directPosition base focus (f.symmetryNumber.getD (unum - 1).toNat 0)).y }
  else directPosition base focus unum

/-! General list helpers used by the proofs. -/

theorem getD_replicate {α : Type} (n : Nat) (a d : α) (i : Nat) :
    (List.replicate n a).getD i d = if i < n then a else d := by
  induction n generalizing i with
  | zero => simp [List.replicate]
  | succ m ih =>
      cases i with
      | zero => simp [List.replicate]
      | succ j =>
          simp only [List.replicate, List.getD_cons_succ, ih, Nat.succ_lt_succ_iff]

theorem getD_set_self {α : Type} (l : List α) (i : Nat) (v d : α)
    (h : i < l.length) : (l.set i v).getD i d = v := by
  induction l generalizing i with
  | nil => simp at h
  | cons x xs ih =>
      cases i with
      | zero => simp [List.set]
      | succ j =>
          simp only [List.set, List.getD_cons_succ]
          exact ih j (by simpa using h)

theorem getD_set_ne {α : Type} (l : List α) (i j : Nat) (v d : α)
    (h : i ≠ j) : (l.set i v).getD j d = l.getD j d := by
  induction l generalizing i j with
  | nil => simp [List.set]
  | cons x xs ih =>
      cases i with
      | zero =>
          cases j with
          | zero => exact absurd rfl h
          | succ k => simp [List.set]
      | succ i' =>
          cases j with
          | zero => simp [List.set]
          | succ k =>
              simp only [List.set, List.getD_cons_succ]
              exact ih i' k (by omega)

theorem map_getD_range {α : Type} (l : List α) (d : α) :
    (List.range l.length).map (fun i => l.getD i d) = l := by
  induction l with
  | nil => simp
  | cons x xs ih =>
      rw [List.length_cons, List.range_succ_eq_map, List.map_cons, List.map_map]
      have h2 : (List.range xs.length).map ((fun i => (x :: xs).getD i d) ∘ Nat.succ)
          = (List.range xs.length).map (fun i => xs.getD i d) := by
        apply List.map_congr_left
        intro i _
        simp [Function.comp, List.getD_cons_succ]
      rw [List.getD_cons_zero, h2, ih]

/-- Closed-form characterization of `updateRole`: one guarded case per
spec branch. -/
theorem updateRole_eq (f : Formation) (n s : Int) (nm : String) :
    f.updateRole n s nm =
      if n < 1 ∨ 11 < n then (false, f)
      else if s < 0 then
        (true, { f with symmetryNumber := f.symmetryNumber.set (n - 1).toNat (-1)
                        roleName := f.roleName.set (n - 1).toNat nm })
      else if s = 0 then
        (true, { f with symmetryNumber := f.symmetryNumber.set (n - 1).toNat 0
                        roleName := f.roleName.set (n - 1).toNat nm })
      else if 1 ≤ s ∧ s ≤ 11 ∧ s ≠ n ∧ f.isSideType s = true then
        (true, { f with symmetryNumber := f.symmetryNumber.set (n - 1).toNat s
                        roleName := f.roleName.set (n - 1).toNat nm })
      else (false, f) := by
  by_cases hn : n < 1 ∨ 11 < n
  · simp [Formation.updateRole, if_pos hn]
  · by_cases hs0 : s < 0
    · simp [Formation.updateRole, Formation.setSideType, Formation.setRoleNameAt,
        if_neg hn, if_pos hs0]
    · by_cases hs1 : s = 0
      · simp [Formation.updateRole, Formation.setCenterType, Formation.setRoleNameAt,
          if_neg hn, hs1]
      · by_cases hr : s < 1 ∨ 11 < s
        · have hc : ¬ (1 ≤ s ∧ s ≤ 11 ∧ s ≠ n ∧ f.isSideType s = true) := by
            intro h
            obtain ⟨a, b, -, -⟩ := h
            omega
          simp [Formation.updateRole, Formation.setSymmetryType,
            if_neg hn, if_neg hs0, if_neg hs1, if_pos hr, if_neg hc]
        · by_cases he : s = n
          · have hc : ¬ (1 ≤ s ∧ s ≤ 11 ∧ s ≠ n ∧ f.isSideType s = true) := by
              intro h
              exact h.2.2.1 he
            simp [Formation.updateRole, Formation.setSymmetryType,
              if_neg hn, if_neg hs0, if_neg hs1, if_neg hr, if_pos he, if_neg hc]
          · by_cases hside : f.isSideType s = true
            · have hc : 1 ≤ s ∧ s ≤ 11 ∧ s ≠ n ∧ f.isSideType s = true :=
                ⟨by omega, by omega, he, hside⟩
              simp [Formation.updateRole, Formation.setSymmetryType, Formation.setRoleNameAt,
                if_neg hn, if_neg hs0, if_neg hs1, if_neg hr, if_neg he, if_pos hside, if_pos hc]
            · have hc : ¬ (1 ≤ s ∧ s ≤ 11 ∧ s ≠ n ∧ f.isSideType s = true) := by
                intro h
                exact hside h.2.2.2
              simp [Formation.updateRole, Formation.setSymmetryType,
                if_neg hn, if_neg hs0, if_neg hs1, if_neg hr, if_neg he, hside, if_neg hc]

/-- C10: for every player number in 1..11 and every formation state,
`isSideType`, `isCenterType` and `isSymmetryType` are the three sign tests
on the stored value returned by `getSymmetryNumber`, so exactly one of
them holds. -/
theorem classification_sign_trichotomy (f : Formation) (u : Int)
    (h1 : 1 ≤ u) (h2 : u ≤ 11) :
    ((f.isSideType u = true ↔ f.getSymmetryNumber u < 0)
      ∧ (f.isCenterType u = true ↔ f.getSymmetryNumber u = 0)
      ∧ (f.isSymmetryType u = true ↔ 0 < f.getSymmetryNumber u))
    ∧ ((f.isSideType u = true ∧ ¬ f.isCenterType u = true ∧ ¬ f.isSymmetryType u = true)
      ∨ (¬ f.isSideType u = true ∧ f.isCenterType u = true ∧ ¬ f.isSymmetryType u = true)
      ∨ (¬ f.isSideType u = true ∧ ¬ f.isCenterType u = true ∧ f.isSymmetryType u = true)) := by
  have hg : ¬ (u < 1 ∨ 11 < u) := by omega
  simp only [Formation.isSideType, Formation.isCenterType, Formation.isSymmetryType,
    Formation.getSymmetryNumber, if_neg hg, decide_eq_true_eq, gt_iff_lt]
  refine ⟨⟨trivial, trivial, trivial⟩, ?_⟩
  generalize f.symmetryNumber.getD (u - 1).toNat 0 = v
  omega

/-- C10 witness: the trichotomy evaluated for player 3 of a freshly
constructed formation. -/
theorem classification_sign_trichotomy_w :
    (1 : Int) ≤ 3 ∧ (3 : Int) ≤ 11 ∧
    ((((initialFormation "w10").isSideType 3 = true ↔ (initialFormation "w10").getSymmetryNumber 3 < 0)
      ∧ ((initialFormation "w10").isCenterType 3 = true ↔ (initialFormation "w10").getSymmetryNumber 3 = 0)
      ∧ ((initialFormation "w10").isSymmetryType 3 = true ↔ 0 < (initialFormation "w10").getSymmetryNumber 3))
    ∧ (((initialFormation "w10").isSideType 3 = true ∧ ¬ (initialFormation "w10").isCenterType 3 = true ∧ ¬ (initialFormation "w10").isSymmetryType 3 = true)
      ∨ (¬ (initialFormation "w10").isSideType 3 = true ∧ (initialFormation "w10").isCenterType 3 = true ∧ ¬ (initialFormation "w10").isSymmetryType 3 = true)
      ∨ (¬ (initialFormation "w10").isSideType 3 = true ∧ ¬ (initialFormation "w10").isCenterType 3 = true ∧ (initialFormation "w10").isSymmetryType 3 = true))) :=
  ⟨by decide, by decide,
    classification_sign_trichotomy (initialFormation "w10") 3 (by decide) (by decide)⟩

/-- C5: any player number outside 1..11 makes every query return its safe
default (`false` / `0`) and makes `updateRole` reject without touching any
part of the state. -/
theorem out_of_range_safe_defaults (f : Formation) (u s : Int) (nm : String)
    (h : u < 1 ∨ 11 < u) :
    f.isSideType u = false ∧ f.isCenterType u = false ∧ f.isSymmetryType u = false
    ∧ f.getSymmetryNumber u = 0 ∧ f.updateRole u s nm = (false, f) := by
  refine ⟨?_, ?_, ?_, ?_, ?_⟩ <;>
    simp [Formation.isSideType, Formation.isCenterType, Formation.isSymmetryType,
      Formation.getSymmetryNumber, Formation.updateRole, if_pos h]

/-- C5 witness: the safe defaults evaluated at player number 12. -/
theorem out_of_range_safe_defaults_w :
    ((12 : Int) < 1 ∨ 11 < (12 : Int)) ∧
    ((initialFormation "w5").isSideType 12 = false
      ∧ (initialFormation "w5").isCenterType 12 = false
      ∧ (initialFormation "w5").isSymmetryType 12 = false
      ∧ (initialFormation "w5").getSymmetryNumber 12 = 0
      ∧ (initialFormation "w5").updateRole 12 3 "CB" = (false, initialFormation "w5")) :=
  ⟨by decide, out_of_range_safe_defaults (initialFormation "w5") 12 3 "CB" (by decide)⟩

/-- C4 counterexample: for an out-of-range player number the source
`getSymmetryNumber` returns `0` (formation.h:221), not a negative value as
the claim states. -/
theorem getSymmetryNumber_out_of_range_cex :
    (initialFormation "v4").getSymmetryNumber 12 = 0
    ∧ ¬ ((initialFormation "v4").getSymmetryNumber 12 < 0) := by
  decide

/-- C4 amended: `getSymmetryNumber` returns the positive reference number
if the slot is SYMMETRY, `0` if it is CENTER, a negative value if it is
SIDE, and `0` (not a negative value) when the player number is outside
1..11. -/
theorem getSymmetryNumber_amended (f : Formation) (u : Int) :
    ((u < 1 ∨ 11 < u) → f.getSymmetryNumber u = 0)
    ∧ (f.isSymmetryType u = true → 0 < f.getSymmetryNumber u)
    ∧ (f.isCenterType u = true → f.getSymmetryNumber u = 0)
    ∧ (f.isSideType u = true → f.getSymmetryNumber u < 0) := by
  by_cases h : u < 1 ∨ 11 < u
  · simp [Formation.isSideType, Formation.isCenterType, Formation.isSymmetryType,
      Formation.getSymmetryNumber, if_pos h]
  · simp only [Formation.isSideType, Formation.isCenterType, Formation.isSymmetryType,
      Formation.getSymmetryNumber, if_neg h, decide_eq_true_eq, gt_iff_lt]
    generalize f.symmetryNumber.getD (u - 1).toNat 0 = v
    omega

/-- C4 amended witness: the amended statement evaluated for a formation
whose slot 2 is SYMMETRY referencing 1, at `unum = 2` and at the invalid
`unum = 12`. -/
theorem getSymmetryNumber_amended_w :
    ((initialFormation "v4").updateRole 2 1 "a").2.isSymmetryType 2 = true
    ∧ 0 < ((initialFormation "v4").updateRole 2 1 "a").2.getSymmetryNumber 2
    ∧ (((12 : Int) < 1 ∨ 11 < (12 : Int)) →
        ((initialFormation "v4").updateRole 2 1 "a").2.getSymmetryNumber 12 = 0) :=
  ⟨by decide,
    (getSymmetryNumber_amended ((initialFormation "v4").updateRole 2 1 "a").2 2).2.1 (by decide),
    (getSymmetryNumber_amended ((initialFormation "v4").updateRole 2 1 "a").2 12).1⟩

/-- A slot can only test as SIDE when its player number is in range. -/
theorem isSideType_true_range (f : Formation) (u : Int)
    (h : f.isSideType u = true) : 1 ≤ u ∧ u ≤ 11 := by
  by_cases hg : u < 1 ∨ 11 < u
  · simp [Formation.isSideType, if_pos hg] at h
  · omega

/-- A slot can only test as SYMMETRY when its player number is in range. -/
theorem isSymmetryType_true_range (f : Formation) (u : Int)
    (h : f.isSymmetryType u = true) : 1 ≤ u ∧ u ≤ 11 := by
  by_cases hg : u < 1 ∨ 11 < u
  · simp [Formation.isSymmetryType, if_pos hg] at h
  · omega

/-- A SIDE test reads a negative stored value. -/
theorem isSideType_true_val (f : Formation) (u : Int)
    (h : f.isSideType u = true) : f.symmetryNumber.getD (u - 1).toNat 0 < 0 := by
  by_cases hg : u < 1 ∨ 11 < u
  · simp [Formation.isSideType, if_pos hg] at h
  · simpa [Formation.isSideType, if_neg hg] using h

/-- A SYMMETRY test reads a positive stored value. -/
theorem isSymmetryType_true_val (f : Formation) (u : Int)
    (h : f.isSymmetryType u = true) : 0 < f.symmetryNumber.getD (u - 1).toNat 0 := by
  by_cases hg : u < 1 ∨ 11 < u
  · simp [Formation.isSymmetryType, if_pos hg] at h
  · simpa [Formation.isSymmetryType, if_neg hg] using h

/-- C2: `updateRole` is all-or-nothing — an out-of-range player number or a
positive symmetry reference to a slot that does not hold SIDE makes it
return `false`, and any `false` return leaves the whole state (the
classification table, version, samples handle and every role name) exactly
as it was. -/
theorem updateRole_all_or_nothing (f : Formation) (n s : Int) (nm : String) :
    ((n < 1 ∨ 11 < n) → f.updateRole n s nm = (false, f))
    ∧ (0 < s → f.isSideType s = false → f.updateRole n s nm = (false, f))
    ∧ ((f.updateRole n s nm).1 = false → (f.updateRole n s nm).2 = f) := by
  rw [updateRole_eq]
  by_cases hn : n < 1 ∨ 11 < n
  · rw [if_pos hn]
    exact ⟨fun _ => rfl, fun _ _ => rfl, fun _ => rfl⟩
  · rw [if_neg hn]
    by_cases hs0 : s < 0
    · rw [if_pos hs0]
      exact ⟨fun h => absurd h hn, fun hs _ => absurd hs (by omega),
             fun h => Bool.noConfusion h⟩
    · rw [if_neg hs0]
      by_cases hs1 : s = 0
      · rw [if_pos hs1]
        exact ⟨fun h => absurd h hn, fun hs _ => absurd hs (by omega),
               fun h => Bool.noConfusion h⟩
      · rw [if_neg hs1]
        by_cases hc : 1 ≤ s ∧ s ≤ 11 ∧ s ≠ n ∧ f.isSideType s = true
        · rw [if_pos hc]
          refine ⟨fun h => absurd h hn, fun _ hside => ?_, fun h => Bool.noConfusion h⟩
          have hc4 := hc.2.2.2
          rw [hside] at hc4
          exact Bool.noConfusion hc4
        · rw [if_neg hc]
          exact ⟨fun _ => rfl, fun _ _ => rfl, fun _ => rfl⟩

/-- C2 witness: rejection for out-of-range player 0, rejection of a
symmetry reference to the CENTER slot 1, both leaving the state intact. -/
theorem updateRole_all_or_nothing_w :
    ((0 : Int) < 1 ∨ 11 < (0 : Int))
    ∧ (initialFormation "w2").updateRole 0 (-1) "GK" = (false, initialFormation "w2")
    ∧ (0 : Int) < 1
    ∧ ((initialFormation "w2").updateRole 1 0 "cb").2.isSideType 1 = false
    ∧ ((initialFormation "w2").updateRole 1 0 "cb").2.updateRole 2 1 "x"
        = (false, ((initialFormation "w2").updateRole 1 0 "cb").2) :=
  ⟨by decide,
   (updateRole_all_or_nothing (initialFormation "w2") 0 (-1) "GK").1 (by decide),
   by decide, by decide,
   (updateRole_all_or_nothing ((initialFormation "w2").updateRole 1 0 "cb").2 2 1 "x").2.1
     (by decide) (by decide)⟩

/-- C1 counterexample: on a fresh formation slot 1 holds SIDE, yet
`updateRole(1, 1, ·)` — a positive symmetry reference to a slot that
currently holds SIDE — is rejected, because the reference is the slot
itself (spec invariant 2 forbids self-reference); the claim as stated
predicts a successful SYMMETRY classification here. -/
theorem updateRole_self_reference_cex :
    (initialFormation "c1").isSideType 1 = true
    ∧ ((initialFormation "c1").updateRole 1 1 "CB").1 = false
    ∧ ((initialFormation "c1").updateRole 1 1 "CB").2.isSymmetryType 1 = false := by
  decide

/-- C1 amended: for a player number in 1..11, `updateRole` with a negative
reference classifies the slot SIDE, with a zero reference CENTER, and with
a positive reference `s` SYMMETRY referencing `s` exactly when `s` is not
the slot itself and slot `s` currently holds SIDE; if slot `s` is not SIDE
the call is rejected. -/
theorem updateRole_classification_amended (f : Formation) (n s : Int) (nm : String)
    (hn1 : 1 ≤ n) (hn2 : n ≤ 11) (hlen : f.symmetryNumber.length = 11) :
    (s < 0 → (f.updateRole n s nm).1 = true
      ∧ (f.updateRole n s nm).2.isSideType n = true
      ∧ (f.updateRole n s nm).2.isCenterType n = false
      ∧ (f.updateRole n s nm).2.isSymmetryType n = false)
    ∧ (s = 0 → (f.updateRole n s nm).1 = true
      ∧ (f.updateRole n s nm).2.isCenterType n = true
      ∧ (f.updateRole n s nm).2.isSideType n = false
      ∧ (f.updateRole n s nm).2.isSymmetryType n = false)
    ∧ (0 < s →
        ((f.updateRole n s nm).1 = true ↔ s ≠ n ∧ f.isSideType s = true)
        ∧ (f.isSideType s = false → (f.updateRole n s nm).1 = false)
        ∧ ((f.updateRole n s nm).1 = true →
            (f.updateRole n s nm).2.isSymmetryType n = true
            ∧ (f.updateRole n s nm).2.getSymmetryNumber n = s)) := by
  rw [updateRole_eq]
  have hn : ¬ (n < 1 ∨ 11 < n) := by omega
  have hidx : (n - 1).toNat < f.symmetryNumber.length := by omega
  rw [if_neg hn]
  refine ⟨fun hs0 => ?_, fun hs1 => ?_, fun hsp => ?_⟩
  · rw [if_pos hs0]
    refine ⟨rfl, ?_, ?_, ?_⟩ <;>
      simp only [Formation.isSideType, Formation.isCenterType, Formation.isSymmetryType,
        if_neg hn, getD_set_self f.symmetryNumber (n - 1).toNat (-1) 0 hidx,
        decide_eq_true_eq, decide_eq_false_iff_not, gt_iff_lt] <;> omega
  · rw [if_neg (by omega : ¬ s < 0), if_pos hs1]
    refine ⟨rfl, ?_, ?_, ?_⟩ <;>
      simp only [Formation.isSideType, Formation.isCenterType, Formation.isSymmetryType,
        if_neg hn, getD_set_self f.symmetryNumber (n - 1).toNat 0 0 hidx,
        decide_eq_true_eq, decide_eq_false_iff_not, gt_iff_lt] <;> omega
  · rw [if_neg (by omega : ¬ s < 0), if_neg (by omega : ¬ s = 0)]
    by_cases hc : 1 ≤ s ∧ s ≤ 11 ∧ s ≠ n ∧ f.isSideType s = true
    · rw [if_pos hc]
      refine ⟨⟨fun _ => ⟨hc.2.2.1, hc.2.2.2⟩, fun _ => rfl⟩, fun hside => ?_, fun _ => ⟨?_, ?_⟩⟩
      · have hc4 := hc.2.2.2
        rw [hside] at hc4
        exact Bool.noConfusion hc4
      · simp only [Formation.isSymmetryType, if_neg hn,
          getD_set_self f.symmetryNumber (n - 1).toNat s 0 hidx,
          decide_eq_true_eq, gt_iff_lt]
        omega
      · simp only [Formation.getSymmetryNumber, if_neg hn,
          getD_set_self f.symmetryNumber (n - 1).toNat s 0 hidx]
    · rw [if_neg hc]
      refine ⟨⟨fun h => Bool.noConfusion h, fun hr => ?_⟩, fun _ => rfl,
              fun h => Bool.noConfusion h⟩
      have hrange := isSideType_true_range f s hr.2
      exact absurd ⟨hrange.1, hrange.2, hr.1, hr.2⟩ hc

/-- C1 amended witness: player 2 successfully becomes SYMMETRY referencing
the SIDE slot 1 of a fresh formation. -/
theorem updateRole_classification_amended_w :
    (1 : Int) ≤ 2 ∧ (2 : Int) ≤ 11
    ∧ (initialFormation "w1").symmetryNumber.length = 11
    ∧ (0 : Int) < 1
    ∧ ((initialFormation "w1").updateRole 2 1 "a").1 = true
    ∧ ((initialFormation "w1").updateRole 2 1 "a").2.isSymmetryType 2 = true
    ∧ ((initialFormation "w1").updateRole 2 1 "a").2.getSymmetryNumber 2 = 1 :=
  ⟨by decide, by decide, by decide, by decide, by decide,
   ((updateRole_classification_amended (initialFormation "w1") 2 1 "a"
      (by decide) (by decide) (by decide)).2.2 (by decide)).2.2 (by decide)⟩

/-- The state after `updateRole` is either unchanged or a single-slot
update of both tables. -/
theorem updateRole_snd_shape (f : Formation) (n s : Int) (nm : String) :
    (f.updateRole n s nm).2 = f ∨
    ((1 ≤ n ∧ n ≤ 11) ∧ ∃ v : Int, (v = -1 ∨ v = 0 ∨ v = s) ∧
      (f.updateRole n s nm).2 =
        { f with symmetryNumber := f.symmetryNumber.set (n - 1).toNat v
                 roleName := f.roleName.set (n - 1).toNat nm }) := by
  rw [updateRole_eq]
  by_cases hn : n < 1 ∨ 11 < n
  · rw [if_pos hn]
    exact Or.inl rfl
  · rw [if_neg hn]
    by_cases hs0 : s < 0
    · rw [if_pos hs0]
      exact Or.inr ⟨⟨by omega, by omega⟩, -1, Or.inl rfl, rfl⟩
    · rw [if_neg hs0]
      by_cases hs1 : s = 0
      · rw [if_pos hs1]
        exact Or.inr ⟨⟨by omega, by omega⟩, 0, Or.inr (Or.inl rfl), rfl⟩
      · rw [if_neg hs1]
        by_cases hc : 1 ≤ s ∧ s ≤ 11 ∧ s ≠ n ∧ f.isSideType s = true
        · rw [if_pos hc]
          exact Or.inr ⟨⟨by omega, by omega⟩, s, Or.inr (Or.inr rfl), rfl⟩
        · rw [if_neg hc]
          exact Or.inl rfl

/-- Both fixed-size tables keep length 11 in every reachable state. -/
theorem reachable_lengths (f : Formation) (h : Reachable f) :
    f.symmetryNumber.length = 11 ∧ f.roleName.length = 11 := by
  induction h with
  | init nm => exact ⟨by simp [initialFormation], by simp [initialFormation]⟩
  | step g n s nm hg ih =>
      rcases updateRole_snd_shape g n s nm with heq | ⟨-, v, -, heq⟩
      · rw [heq]
        exact ih
      · rw [heq]
        simpa [List.length_set] using ih

/-- In-range player numbers read the stored table entry directly. -/
theorem getSymmetryNumber_in_range (f : Formation) (u : Int)
    (h1 : 1 ≤ u) (h2 : u ≤ 11) :
    f.getSymmetryNumber u = f.symmetryNumber.getD (u - 1).toNat 0 := by
  simp [Formation.getSymmetryNumber, if_neg (show ¬ (u < 1 ∨ 11 < u) by omega)]

/-- A positive stored entry of an in-range slot makes `isSymmetryType`
answer true. -/
theorem isSymmetryType_intro (f : Formation) (u : Int)
    (h1 : 1 ≤ u) (h2 : u ≤ 11)
    (h : 0 < f.symmetryNumber.getD (u - 1).toNat 0) :
    f.isSymmetryType u = true := by
  simp only [Formation.isSymmetryType, if_neg (show ¬ (u < 1 ∨ 11 < u) by omega),
    decide_eq_true_eq, gt_iff_lt]
  exact h

/-- C3 counterexample: from a fresh formation, `updateRole(2, 1, ·)` makes
slot 2 SYMMETRY referencing the SIDE slot 1; a subsequent
`updateRole(1, 0, ·)` retypes slot 1 to CENTER and is accepted, leaving the
reachable state with slot 2 SYMMETRY referencing a slot that no longer
holds SIDE. -/
theorem reachable_dangling_reference_cex :
    Reachable (((initialFormation "c3").updateRole 2 1 "a").2.updateRole 1 0 "b").2
    ∧ ((((initialFormation "c3").updateRole 2 1 "a").2.updateRole 1 0 "b").2.isSymmetryType 2 = true)
    ∧ ((((initialFormation "c3").updateRole 2 1 "a").2.updateRole 1 0 "b").2.getSymmetryNumber 2 = 1)
    ∧ ((((initialFormation "c3").updateRole 2 1 "a").2.updateRole 1 0 "b").2.isSideType 1 = false) :=
  ⟨Reachable.step _ 1 0 "b" (Reachable.step _ 2 1 "a" (Reachable.init "c3")),
   by decide, by decide, by decide⟩

/-- Reachable-state part of the symmetry-reference invariant: every
SYMMETRY slot of a reachable state references a slot in 1..11 other than
itself. -/
theorem reachable_symmetry_ref_inv (f : Formation) (h : Reachable f) :
    ∀ u : Int, f.isSymmetryType u = true →
      1 ≤ f.getSymmetryNumber u ∧ f.getSymmetryNumber u ≤ 11
        ∧ f.getSymmetryNumber u ≠ u := by
  induction h with
  | init nm =>
      intro u hu
      exfalso
      have hv := isSymmetryType_true_val _ _ hu
      have : (initialFormation nm).symmetryNumber = List.replicate 11 (-1) := rfl
      rw [this, getD_replicate] at hv
      split at hv <;> omega
  | step g n s nm hg ih =>
      intro u hu
      have hur := isSymmetryType_true_range _ _ hu
      have huv := isSymmetryType_true_val _ _ hu
      have hlen := (reachable_lengths g hg).1
      rcases updateRole_snd_shape g n s nm with heq | ⟨hnr, v, hv, heq⟩
      · rw [heq] at hu huv ⊢
        exact ih u hu
      · rw [heq] at huv ⊢
        by_cases hi : (u - 1).toNat = (n - 1).toNat
        · -- the updated slot itself
          have hun : u = n := by omega
          rw [getSymmetryNumber_in_range _ _ hur.1 hur.2]
          have hvv : ({ g with symmetryNumber := g.symmetryNumber.set (n - 1).toNat v
                               roleName := g.roleName.set (n - 1).toNat nm }
              : Formation).symmetryNumber.getD (u - 1).toNat 0 = v := by
            rw [hi]
            exact getD_set_self g.symmetryNumber (n - 1).toNat v 0 (by omega)
          rw [hvv] at huv ⊢
          -- value is -1, 0 or s; positivity forces the symmetry branch
          rcases hv with rfl | rfl | hv3
          · omega
          · omega
          · -- v = s: recover the acceptance conditions from updateRole_eq
            rw [hv3] at huv heq ⊢
            rw [updateRole_eq] at heq
            by_cases hgn : n < 1 ∨ 11 < n
            · exact absurd hgn (by omega)
            · rw [if_neg hgn] at heq
              rw [if_neg (show ¬ s < 0 by omega), if_neg (show ¬ s = 0 by omega)] at heq
              by_cases hc : 1 ≤ s ∧ s ≤ 11 ∧ s ≠ n ∧ g.isSideType s = true
              · exact ⟨hc.1, hc.2.1, by omega⟩
              · -- the call was rejected, so the set was a no-op on g:
                -- slot u already stored s in g and the IH applies
                rw [if_neg hc] at heq
                have hset : g.symmetryNumber = g.symmetryNumber.set (n - 1).toNat s :=
                  congrArg Formation.symmetryNumber heq
                have hsu : g.symmetryNumber.getD (u - 1).toNat 0 = s := by
                  rw [hset, hi]
                  exact getD_set_self g.symmetryNumber (n - 1).toNat s 0 (by omega)
                have hih := ih u (isSymmetryType_intro g u hur.1 hur.2 (by omega))
                rw [getSymmetryNumber_in_range _ _ hur.1 hur.2, hsu] at hih
                exact hih
        · -- some other slot: its entry is untouched
          have hvv : ({ g with symmetryNumber := g.symmetryNumber.set (n - 1).toNat v
                               roleName := g.roleName.set (n - 1).toNat nm }
              : Formation).symmetryNumber.getD (u - 1).toNat 0
              = g.symmetryNumber.getD (u - 1).toNat 0 :=
            getD_set_ne g.symmetryNumber (n - 1).toNat (u - 1).toNat v 0 (Ne.symm hi)
          rw [getSymmetryNumber_in_range _ _ hur.1 hur.2, hvv]
          rw [hvv] at huv
          have hgu := ih u (isSymmetryType_intro g u hur.1 hur.2 huv)
          rw [getSymmetryNumber_in_range _ _ hur.1 hur.2] at hgu
          exact hgu

/-- C3 amended: in every reachable state, every SYMMETRY slot references a
slot in 1..11 other than itself; and a SYMMETRY reference is only ever
established by an accepted `updateRole` call whose referenced slot holds
SIDE at that moment, the call storing exactly that reference.  Since
`updateRole` also accepts retyping a referenced SIDE slot, the referenced
slot need not still hold SIDE in a later reachable state. -/
theorem reachable_symmetry_ref_amended :
    (∀ f : Formation, Reachable f → ∀ u : Int, f.isSymmetryType u = true →
        1 ≤ f.getSymmetryNumber u ∧ f.getSymmetryNumber u ≤ 11
          ∧ f.getSymmetryNumber u ≠ u)
    ∧ (∀ (g : Formation) (n s : Int) (nm : String), Reachable g → 0 < s →
        (g.updateRole n s nm).1 = true →
        g.isSideType s = true
          ∧ (g.updateRole n s nm).2.getSymmetryNumber n = s) := by
  constructor
  · exact reachable_symmetry_ref_inv
  · intro g n s nm hg hs hacc
    have hlen := (reachable_lengths g hg).1
    rw [updateRole_eq] at hacc ⊢
    by_cases hn : n < 1 ∨ 11 < n
    · rw [if_pos hn] at hacc
      exact Bool.noConfusion hacc
    · rw [if_neg hn] at hacc ⊢
      rw [if_neg (show ¬ s < 0 by omega), if_neg (show ¬ s = 0 by omega)] at hacc ⊢
      by_cases hc : 1 ≤ s ∧ s ≤ 11 ∧ s ≠ n ∧ g.isSideType s = true
      · rw [if_pos hc]
        refine ⟨hc.2.2.2, ?_⟩
        simp only [Formation.getSymmetryNumber, if_neg hn]
        exact getD_set_self g.symmetryNumber (n - 1).toNat s 0 (by omega)
      · rw [if_neg hc] at hacc
        exact Bool.noConfusion hacc

/-- C3 amended witness: the invariant evaluated on the reachable state
where slot 2 is SYMMETRY referencing slot 1, and the establishment-time
property evaluated on the accepted call that created that reference — at
that moment slot 1 held SIDE. -/
theorem reachable_symmetry_ref_amended_w :
    Reachable ((initialFormation "w3").updateRole 2 1 "a").2
    ∧ ((initialFormation "w3").updateRole 2 1 "a").2.isSymmetryType 2 = true
    ∧ (1 ≤ ((initialFormation "w3").updateRole 2 1 "a").2.getSymmetryNumber 2
        ∧ ((initialFormation "w3").updateRole 2 1 "a").2.getSymmetryNumber 2 ≤ 11
        ∧ ((initialFormation "w3").updateRole 2 1 "a").2.getSymmetryNumber 2 ≠ 2)
    ∧ Reachable (initialFormation "w3")
    ∧ (0 : Int) < 1
    ∧ ((initialFormation "w3").updateRole 2 1 "a").1 = true
    ∧ ((initialFormation "w3").isSideType 1 = true
        ∧ ((initialFormation "w3").updateRole 2 1 "a").2.getSymmetryNumber 2 = 1) :=
  ⟨Reachable.step _ 2 1 "a" (Reachable.init "w3"), by decide,
   reachable_symmetry_ref_amended.1 _ (Reachable.step _ 2 1 "a" (Reachable.init "w3"))
     2 (by decide),
   Reachable.init "w3", by decide, by decide,
   reachable_symmetry_ref_amended.2 (initialFormation "w3") 2 1 "a"
     (Reachable.init "w3") (by decide) (by decide)⟩

/-- C8: `create(name)` over the registry returns null and leaves the
registry unchanged when the name is unregistered, and otherwise returns a
fresh default instance whose 11 slots are all SIDE and which holds no
samples. -/
theorem create_by_name_spec (reg : List String) (nm : String) :
    (createByName reg nm).2 = reg
    ∧ (nm ∉ reg → (createByName reg nm).1 = none)
    ∧ (nm ∈ reg → (createByName reg nm).1 = some (initialFormation nm)
        ∧ (∀ u : Int, 1 ≤ u → u ≤ 11 → (initialFormation nm).isSideType u = true)
        ∧ (initialFormation nm).samples = []) := by
  by_cases h : nm ∈ reg
  · refine ⟨by simp [createByName, if_pos h], fun hc => absurd h hc,
      fun _ => ⟨by simp [createByName, if_pos h], ?_, rfl⟩⟩
    intro u h1 h2
    simp only [Formation.isSideType, initialFormation,
      if_neg (show ¬ (u < 1 ∨ 11 < u) by omega), decide_eq_true_eq]
    rw [getD_replicate]
    split <;> omega
  · exact ⟨by simp [createByName, if_neg h],
      fun _ => by simp [createByName, if_neg h], fun hc => absurd hc h⟩

/-- C8 witness: a registered name yields the default instance; an
unregistered name yields null with the registry intact. -/
theorem create_by_name_spec_w :
    "static-test" ∈ ["static-test"]
    ∧ (createByName ["static-test"] "static-test").1 = some (initialFormation "static-test")
    ∧ "unregistered-name" ∉ ["static-test"]
    ∧ (createByName ["static-test"] "unregistered-name").1 = none
    ∧ (createByName ["static-test"] "unregistered-name").2 = ["static-test"] :=
  ⟨by decide,
   ((create_by_name_spec ["static-test"] "static-test").2.2 (by decide)).1,
   by decide,
   (create_by_name_spec ["static-test"] "unregistered-name").2.1 (by decide),
   (create_by_name_spec ["static-test"] "unregistered-name").1⟩

/-- A successful header-pair read determines the stream's first two
tokens. -/
theorem readNameVersion_eq_some (ts : List Token) (nm : String) (v : Int)
    (rest : List Token) (h : readNameVersion ts = some ((nm, v), rest)) :
    ts = Token.tstr nm :: Token.tint v :: rest := by
  cases ts with
  | nil => simp [readNameVersion] at h
  | cons t ts1 =>
      cases t with
      | tint k => simp [readNameVersion] at h
      | tstr a =>
          cases ts1 with
          | nil => simp [readNameVersion] at h
          | cons t2 ts2 =>
              cases t2 with
              | tstr b => simp [readNameVersion] at h
              | tint k =>
                  simp only [readNameVersion, Option.some.injEq, Prod.mk.injEq] at h
                  obtain ⟨⟨rfl, rfl⟩, rfl⟩ := h
                  rfl

/-- C7: `create(stream)` reads only the header token pair first and
resolves the name; it returns null when the header is unreadable, the name
is unregistered, or the version is unsupported, and otherwise performs a
full `read` of the whole stream; `read` runs HEADER, CONF, SAMPLES in that
order and aborts at the first failing block. -/
theorem create_from_stream_spec (reg : List String) (ts : List Token) :
    (readNameVersion ts = none → createFromStream reg ts = none)
    ∧ (∀ nm v rest, readNameVersion ts = some ((nm, v), rest) →
        (nm ∉ reg → createFromStream reg ts = none)
        ∧ (nm ∈ reg → createFromStream reg ts = (initialFormation nm).read ts)
        ∧ (versionSupported v = false → createFromStream reg ts = none))
    ∧ (∀ f : Formation, f.readHeader ts = none → f.read ts = none)
    ∧ (∀ (f f1 : Formation) (ts1 : List Token), f.readHeader ts = some (f1, ts1) →
        f1.readConf ts1 = none → f.read ts = none)
    ∧ (∀ (f f1 f2 : Formation) (ts1 ts2 : List Token),
        f.readHeader ts = some (f1, ts1) → f1.readConf ts1 = some (f2, ts2) →
        f.read ts = (f2.readSamples ts2).map Prod.fst) := by
  refine ⟨?_, ?_, ?_, ?_, ?_⟩
  · intro h
    simp [createFromStream, h]
  · intro nm v rest h
    refine ⟨fun hn => ?_, fun hy => ?_, fun hver => ?_⟩
    · simp [createFromStream, h, hn]
    · simp [createFromStream, h, hy]
    · have hts := readNameVersion_eq_some ts nm v rest h
      by_cases hy : nm ∈ reg
      · have hh : (initialFormation nm).readHeader ts = none := by
          rw [hts]
          simp only [Formation.readHeader, readNameVersion]
          rw [if_neg]
          intro hcond
          rw [hver] at hcond
          exact Bool.noConfusion hcond.2
        have hread : (initialFormation nm).read ts = none := by
          simp [Formation.read, hh]
        simp [createFromStream, h, hy, hread]
      · simp [createFromStream, h, hy]
  · intro f h
    simp [Formation.read, h]
  · intro f f1 ts1 h1 h2
    simp [Formation.read, h1, h2]
  · intro f f1 f2 ts1 ts2 h1 h2
    simp only [Formation.read, h1, h2]
    rcases h3 : f2.readSamples ts2 with - | ⟨f3, ts3⟩ <;> simp [h3]

/-- C7 witness: a stream whose header names an unregistered strategy makes
`create` return null. -/
theorem create_from_stream_spec_w :
    readNameVersion [Token.tstr "other", Token.tint 0]
      = some (("other", 0), ([] : List Token))
    ∧ "other" ∉ ["sf"]
    ∧ createFromStream ["sf"] [Token.tstr "other", Token.tint 0] = none :=
  ⟨rfl, by decide,
   ((create_from_stream_spec ["sf"] [Token.tstr "other", Token.tint 0]).2.1 "other" 0 []
      rfl).1 (by decide)⟩

/-- CONF entries round-trip, tail preserved. -/
theorem readConfEntries_round (l : List (Int × String)) (rest : List Token) :
    readConfEntries l.length (l.flatMap printConfEntry ++ rest) = some (l, rest) := by
  induction l with
  | nil => rfl
  | cons e l ih =>
      rcases e with ⟨a, b⟩
      have hstream : ((a, b) :: l).flatMap printConfEntry ++ rest
          = Token.tint a :: Token.tstr b :: (l.flatMap printConfEntry ++ rest) := by
        simp [printConfEntry]
      rw [List.length_cons, hstream]
      simp only [readConfEntries, ih]

/-- Point lists round-trip, tail preserved. -/
theorem readNPoints_round (l : List (Int × Int)) (rest : List Token) :
    readNPoints l.length (l.flatMap printPoint ++ rest) = some (l, rest) := by
  induction l with
  | nil => rfl
  | cons p l ih =>
      rcases p with ⟨a, b⟩
      have hstream : ((a, b) :: l).flatMap printPoint ++ rest
          = Token.tint a :: Token.tint b :: (l.flatMap printPoint ++ rest) := by
        simp [printPoint]
      rw [List.length_cons, hstream]
      simp only [readNPoints, readPoint, ih]

/-- One sample round-trips, tail preserved. -/
theorem readSample_round (s : Sample) (rest : List Token) :
    readSample (printSample s ++ rest) = some (s, rest) := by
  rcases s with ⟨bx, b2, ps⟩
  simp only [printSample, List.cons_append, List.append_assoc, readSample,
    Int.toNat_natCast, readNPoints_round]

/-- Sample lists round-trip, tail preserved. -/
theorem readNSamples_round (l : List Sample) (rest : List Token) :
    readNSamples l.length (l.flatMap printSample ++ rest) = some (l, rest) := by
  induction l with
  | nil => rfl
  | cons s l ih =>
      simp only [List.flatMap_cons, List.append_assoc, List.length_cons, readNSamples,
        readSample_round, ih]

/-- The SAMPLES block round-trips into any target formation. -/
theorem readSamples_round (f g : Formation) (rest : List Token) :
    g.readSamples (f.printSamples ++ rest) = some ({ g with samples := f.samples }, rest) := by
  simp only [Formation.printSamples, Formation.readSamples, List.cons_append,
    Int.toNat_natCast, readNSamples_round]

/-- The CONF block round-trips into any target formation when the printed
tables have the fixed length 11. -/
theorem readConf_round (f : Formation) (h1 : f.symmetryNumber.length = 11)
    (h2 : f.roleName.length = 11) (g : Formation) (rest : List Token) :
    g.readConf (f.printConf ++ rest)
      = some ({ g with symmetryNumber := f.symmetryNumber
                       roleName := f.roleName }, rest) := by
  have hlen : f.confEntries.length = 11 := by
    simp [Formation.confEntries]
  have hfst : f.confEntries.map Prod.fst = f.symmetryNumber := by
    simp only [Formation.confEntries, List.map_map, Function.comp_def]
    rw [← h1]
    exact map_getD_range f.symmetryNumber 0
  have hsnd : f.confEntries.map Prod.snd = f.roleName := by
    simp only [Formation.confEntries, List.map_map, Function.comp_def]
    rw [← h2]
    exact map_getD_range f.roleName ""
  simp only [Formation.printConf, Formation.readConf, ← hlen, readConfEntries_round,
    hfst, hsnd]

/-- The HEADER block round-trips when the printed name matches the target
instance and the version is supported. -/
theorem readHeader_round (f g : Formation) (hname : g.name = f.name)
    (hv : versionSupported f.version = true) (rest : List Token) :
    g.readHeader (f.printHeader ++ rest) = some ({ g with version := f.version }, rest) := by
  simp only [Formation.printHeader, List.cons_append, List.nil_append,
    Formation.readHeader, readNameVersion]
  rw [if_pos ⟨hname.symm, hv⟩]

/-- The SAMPLES block at the very end of the stream. -/
theorem readSamples_round_nil (f g : Formation) :
    g.readSamples f.printSamples = some ({ g with samples := f.samples }, []) := by
  have h := readSamples_round f g []
  rwa [List.append_nil] at h

/-- A full `read` of the printed form of `f` into a fresh instance of the
same strategy reconstructs `f` exactly. -/
theorem read_round (f : Formation) (h1 : f.symmetryNumber.length = 11)
    (h2 : f.roleName.length = 11) (hv : versionSupported f.version = true) :
    (initialFormation f.name).read f.print = some f := by
  obtain ⟨nm0, v0, sy, ro, sa⟩ := f
  simp only [Formation.print, List.append_assoc, Formation.read,
    readHeader_round ⟨nm0, v0, sy, ro, sa⟩ (initialFormation nm0) rfl hv,
    readConf_round ⟨nm0, v0, sy, ro, sa⟩ h1 h2,
    readSamples_round_nil ⟨nm0, v0, sy, ro, sa⟩]
  simp [initialFormation]

/-- C6: feeding the printed text of a formation instance back through
`create(stream)` succeeds and reproduces the instance exactly — same
version, same classification table, same role names, same samples.  The
hypotheses state that the instance is one the program can hold: its
strategy name is registered, its version is supported, and its fixed
tables have length 11. -/
theorem print_read_round_trip (reg : List String) (f : Formation)
    (hmem : f.name ∈ reg) (hv : versionSupported f.version = true)
    (h1 : f.symmetryNumber.length = 11) (h2 : f.roleName.length = 11) :
    createFromStream reg f.print = some f := by
  have hnv : readNameVersion f.print
      = some ((f.name, f.version), f.printConf ++ f.printSamples) := by
    simp [Formation.print, Formation.printHeader, readNameVersion]
  simp only [createFromStream, hnv]
  rw [if_pos hmem]
  exact read_round f h1 h2 hv

/-- Concrete formation with a mixed classification table, role names and a
non-empty sample set, used to evaluate the round-trip. -/
def sampleFormation : Formation :=
  { name := "sf"
    version := 1
    symmetryNumber := [-1, 1, 0, -1, -1, -1, -1, -1, -1, -1, -1]
    roleName := ["gk", "r2", "r3", "", "", "", "", "", "", "", ""]
    samples := [{ ballX := 1, ballY := -2, players := [(3, 4), (5, 6)] }] }

/-- C6 witness: the round-trip evaluated on a concrete instance with a
SYMMETRY slot, role names and one sample. -/
theorem print_read_round_trip_w :
    sampleFormation.name ∈ ["sf"]
    ∧ versionSupported sampleFormation.version = true
    ∧ sampleFormation.symmetryNumber.length = 11
    ∧ sampleFormation.roleName.length = 11
    ∧ createFromStream ["sf"] sampleFormation.print = some sampleFormation :=
  ⟨by decide, by decide, by decide, by decide,
   print_read_round_trip ["sf"] sampleFormation (by decide) (by decide)
     (by decide) (by decide)⟩

/-- C9: for a SYMMETRY player `n` referencing the SIDE player `r`, the
computed position at any focus point equals the referenced player's
position with the lateral (`y`) coordinate negated and the longitudinal
(`x`) coordinate unchanged. -/
theorem getPosition_mirror (f : Formation) (base : List Vector2D) (n r : Int)
    (focus : Vector2D) (hsym : f.isSymmetryType n = true)
    (href : f.getSymmetryNumber n = r) (hside : f.isSideType r = true) :
    f.getPosition base n focus =
      { x := (f.getPosition base r focus).x
        y := - (f.getPosition base r focus).y } := by
  have hnr := isSymmetryType_true_range _ _ hsym
  have hnv := isSymmetryType_true_val _ _ hsym
  have hrr := isSideType_true_range _ _ hside
  have hrv := isSideType_true_val _ _ hside
  have hsr : f.symmetryNumber.getD (n - 1).toNat 0 = r := by
    rw [← getSymmetryNumber_in_range f n hnr.1 hnr.2, href]
  have h0r : 0 < r := hsr ▸ hnv
  simp only [Formation.getPosition,
    if_neg (show ¬ (n < 1 ∨ 11 < n) by omega),
    if_neg (show ¬ (r < 1 ∨ 11 < r) by omega), hsr, if_pos h0r,
    if_neg (lt_asymm hrv : ¬ (0 : Int) < f.symmetryNumber.getD (r - 1).toNat 0)]

/-- C9 witness: the spec scenario — slot 1 SIDE at base position (-10, 5),
slot 2 SYMMETRY referencing slot 1, focus point (0, 0): player 1 is placed
at (-10, 5) and player 2 at (-10, -5). -/
theorem getPosition_mirror_w :
    ((initialFormation "m").updateRole 2 1 "cb").2.isSymmetryType 2 = true
    ∧ ((initialFormation "m").updateRole 2 1 "cb").2.getSymmetryNumber 2 = 1
    ∧ ((initialFormation "m").updateRole 2 1 "cb").2.isSideType 1 = true
    ∧ ((initialFormation "m").updateRole 2 1 "cb").2.getPosition
        [{ x := -10, y := 5 }] 1 { x := 0, y := 0 } = { x := -10, y := 5 }
    ∧ ((initialFormation "m").updateRole 2 1 "cb").2.getPosition
        [{ x := -10, y := 5 }] 2 { x := 0, y := 0 } = { x := -10, y := -5 }
    ∧ ((initialFormation "m").updateRole 2 1 "cb").2.getPosition
        [{ x := -10, y := 5 }] 2 { x := 0, y := 0 }
      = { x := (((initialFormation "m").updateRole 2 1 "cb").2.getPosition
            [{ x := -10, y := 5 }] 1 { x := 0, y := 0 }).x
          y := - (((initialFormation "m").updateRole 2 1 "cb").2.getPosition
            [{ x := -10, y := 5 }] 1 { x := 0, y := 0 }).y } :=
  ⟨by decide, by decide, by decide, by decide, by decide,
   getPosition_mirror ((initialFormation "m").updateRole 2 1 "cb").2
     [{ x := -10, y := 5 }] 2 1 { x := 0, y := 0 }
     (by decide) (by decide) (by decide)⟩

end Rcsc
